import Mathlib

/-!
Shallow embedding of `src/Location.js` (class `Location` of the
`xiaosongshu-location` package): a capability-gated fallback geolocation
resolver.  Host effects (user-agent string, `navigator.connection`,
`navigator.geolocation` reads, HTTP fetches of the IP services, the clock)
are supplied by an explicit environment `Env`; JavaScript exceptions are
modelled with `Except String`; JavaScript dynamic values appearing in
result fields are modelled with `JsVal` (number / string / NaN / Infinity /
undefined), numbers as exact rationals.  Absent object fields (undefined)
are modelled as `Option.none`; the JS distinction between `null` and
`undefined` is collapsed into `none`.
-/

/-- JavaScript value occupying a numeric-or-sentinel result field:
a finite number (as an exact rational), a string, `NaN`, `Infinity`,
or `undefined`. -/
inductive JsVal where
  | num (q : ℚ)
  | str (s : String)
  | nan
  | inf
  | jsUndefined
  deriving DecidableEq, Repr

/-- `v < q` in JavaScript semantics for the values produced here:
true only for a finite number below `q` (`Infinity < q` and `NaN < q`
are false). -/
def JsVal.ltNum (v : JsVal) (q : ℚ) : Bool :=
  match v with
  | .num a => decide (a < q)
  | _ => false

/-- `as` is a prefix of the character list `bs`. -/
def leadsWith : List Char → List Char → Bool
  | [], _ => true
  | _ :: _, [] => false
  | a :: as, b :: bs => a = b && leadsWith as bs

/-- `pat` occurs as a contiguous sublist of `cs`. -/
def listContainsSub (pat : List Char) : List Char → Bool
  | [] => leadsWith pat []
  | c :: cs => leadsWith pat (c :: cs) || listContainsSub pat cs

/-- ASCII lowercasing of one character (the case folding relevant to the
`/i` regex flag on the ASCII literals used by the source). -/
def charLower (c : Char) : Char :=
  if 'A' ≤ c && c ≤ 'Z' then Char.ofNat (c.toNat + 32) else c

/-- Case-insensitive substring test: the JS idiom `/lit/i.test(s)` for a
literal alternative `lit`. -/
def containsCI (s pat : String) : Bool :=
  listContainsSub (pat.data.map charLower) (s.data.map charLower)

/-- `/a|b|.../i.test(s)` for a regex that is an alternation of literals:
some literal occurs in `s` case-insensitively. -/
def testAnyCI (pats : List String) (s : String) : Bool :=
  pats.any (fun p => containsCI s p)

/-- Splitting a character list at every character satisfying `p`,
with JS `String.prototype.split` semantics for single-character
separators (adjacent separators yield empty pieces, the result is
never empty). -/
def splitByP (p : Char → Bool) : List Char → List (List Char)
  | [] => [[]]
  | c :: cs =>
    let r := splitByP p cs
    if p c then [] :: r
    else
      match r with
      | t :: ts => (c :: t) :: ts
      | [] => [[c]]

/-- `s.split(',')` of JS, as strings. -/
def jsSplitComma (s : String) : List String :=
  (splitByP (fun c => c = ',') s.data).map (fun l => String.mk l)

/-- JS split on the whitespace-or-hyphen regex: split `s` at every
whitespace character or hyphen. -/
def jsSplitWsHyphen (s : String) : List String :=
  (splitByP (fun c => c.isWhitespace || c = '-') s.data).map (fun l => String.mk l)

/-- Numeric value of a list of decimal digits, most significant first. -/
def digitsToNat (ds : List Char) : Nat :=
  ds.foldl (fun a c => a * 10 + (c.toNat - 48)) 0

/-- Decimal scanning phase of JS `parseFloat`: skip leading whitespace,
read an optional sign, then the longest `digits [. digits]` prefix.
Returns `none` when no digit is found (the `NaN` case), otherwise the
sign and the integer and fraction digit lists. -/
def jsParseFloatParts (s : String) : Option (Bool × List Char × List Char) :=
  let cs0 := s.data.dropWhile (fun c => c.isWhitespace)
  let neg := cs0.head? = some '-'
  let cs := if cs0.head? = some '-' || cs0.head? = some '+' then cs0.tail else cs0
  let intPart := cs.takeWhile Char.isDigit
  let afterInt := cs.dropWhile Char.isDigit
  let fracPart :=
    match afterInt with
    | '.' :: r => r.takeWhile Char.isDigit
    | _ => []
  if intPart.isEmpty && fracPart.isEmpty then none
  else some (neg, intPart, fracPart)

/-- JS `parseFloat` restricted to plain decimal forms (optional sign,
integer digits, optional fraction): leading whitespace is skipped,
the longest numeric prefix is parsed, and if no digit is found the
result is `NaN`.  Exponent and `Infinity` literal forms, which none of
the modelled data can produce, are not modelled. -/
def jsParseFloat (s : String) : JsVal :=
  match jsParseFloatParts s with
  | none => .nan
  | some (neg, intPart, fracPart) =>
    .num ((if neg then (-1 : ℚ) else 1) * ((digitsToNat intPart : ℚ) +
      (digitsToNat fracPart : ℚ) / ((10 : ℚ) ^ fracPart.length)))

/-- JS `parseFloat` applied to a possibly-undefined value:
`parseFloat(undefined)` coerces `undefined` to the string
`"undefined"`, which parses to `NaN`. -/
def jsParseFloatOpt (s : Option String) : JsVal :=
  match s with
  | some v => jsParseFloat v
  | none => .nan

/-- The JS truthiness default `x || d` for an optional string:
`undefined` and the empty string are falsy. -/
def jsOrStr (x : Option String) (d : String) : String :=
  match x with
  | some s => if s = "" then d else s
  | none => d

/-! ### Host state: connection object, sensor reads, IP-service fetches -/

/-- The `navigator.connection` object: an optional link-type string and an
optional effective-speed-class string (both `undefined` when absent). -/
structure ConnState where
  type : Option String := none
  effectiveType : Option String := none
  deriving DecidableEq, Repr

/-- A sensor fix: `position.coords` of the geolocation API. -/
structure Coords where
  latitude : ℚ
  longitude : ℚ
  accuracy : ℚ
  deriving DecidableEq, Repr

/-- The JSON body of an IP-service response, holding the fields the three
per-service parsers read; absent fields are `none` (undefined). -/
structure IpData where
  loc : Option String := none
  city : Option String := none
  country : Option String := none
  org : Option String := none
  lat : Option ℚ := none
  lon : Option ℚ := none
  isp : Option String := none
  geoplugin_latitude : Option String := none
  geoplugin_longitude : Option String := none
  geoplugin_city : Option String := none
  geoplugin_countryName : Option String := none
  deriving DecidableEq, Repr

/-- An HTTP response as seen by `_getIpLocation`: the `ok`/`status`
fields and the outcome of `response.json()` (which throws on a malformed
body). -/
structure HttpResponse where
  ok : Bool
  status : Nat
  json : Except String IpData
  deriving Repr

/-- Outcome of one `fetch` call: either the promise rejects with an error
message, or a response arrives. -/
inductive FetchOutcome where
  | fail (msg : String)
  | resp (r : HttpResponse)
  deriving Repr

/-- The host environment of one `getGeoLocation` call: every external
read the code performs.  `capabilityRead` is the settled outcome of the
raced high-accuracy probe read inside `_detectDeviceCapabilities` (a
timeout of the race appears as an `error "定位超时"`); `gpsRead` and
`html5Read` are the outcomes of the `getCurrentPosition` calls of
`_getGpsLocation` and `_getHtml5Location`; the three fetch fields are the
outcomes of fetching each IP service's URL.  `Date.now()` is modelled as
the single value `now`. -/
structure Env where
  userAgent : String
  connection : Option ConnState
  hasGeolocation : Bool
  capabilityRead : Except String Coords
  gpsRead : Except String Coords
  html5Read : Except String Coords
  ipinfoFetch : FetchOutcome
  ipapiFetch : FetchOutcome
  geopluginFetch : FetchOutcome
  now : Nat

/-! ### `Location._getNetworkInfo` (src/Location.js lines 80-156) -/

/-- `{networkType, isWiFi}` as returned by `_getNetworkInfo`. -/
structure NetworkInfo where
  networkType : String
  isWiFi : Bool
  deriving DecidableEq, Repr

/-- The literal alternatives of `/Mobi|Android|iPhone|iPad|iPod/i`. -/
def mobileTokens : List String := ["Mobi", "Android", "iPhone", "iPad", "iPod"]

/-- The literal alternatives of `/iPad|Tablet|Touch/i`. -/
def tabletTokens : List String := ["iPad", "Tablet", "Touch"]

/-- `/Mobi|Android|iPhone|iPad|iPod/i.test(userAgent)`. -/
def testMobileUA (ua : String) : Bool := testAnyCI mobileTokens ua

/-- `/iPad|Tablet|Touch/i.test(userAgent)`. -/
def testTabletUA (ua : String) : Bool := testAnyCI tabletTokens ua

/-- The `switch (connection.effectiveType)` mapping shared by both mobile
branches of `_getNetworkInfo` (lines 116-123 and 133-140). -/
def effectiveTypeLabel (et : Option String) : String :=
  match et with
  | some "4g" => "4G"
  | some "3g" => "3G"
  | some "2g" => "2G"
  | some "5g" => "5G"
  | some "slow-2g" => "2G (慢速)"
  | _ => "移动网络"

namespace Location

/-- `Location._getNetworkInfo` (lines 80-156): classify the network from
the optional connection object and the user-agent string. -/
def getNetworkInfo (env : Env) : NetworkInfo :=
  let isDesktop := !testMobileUA env.userAgent
  match env.connection with
  | some connection =>
    match connection.type with
    | some t =>
      if ["wifi", "wlan", "unknown", "802.11"].contains t then
        { networkType := "WiFi", isWiFi := true }
      else if ["ethernet", "lan"].contains t then
        { networkType := "有线网络", isWiFi := true }
      else
        { networkType := effectiveTypeLabel connection.effectiveType, isWiFi := false }
    | none =>
      if isDesktop then
        { networkType := "WiFi/有线网络", isWiFi := true }
      else
        { networkType := effectiveTypeLabel connection.effectiveType, isWiFi := false }
  | none =>
    if isDesktop then
      { networkType := "WiFi/有线网络", isWiFi := true }
    else
      { networkType := "移动网络", isWiFi := false }

/-! ### `Location._detectDeviceCapabilities` (lines 161-214) -/

end Location

/-- The record returned by `_detectDeviceCapabilities`. -/
structure DeviceInfo where
  isMobile : Bool
  isTablet : Bool
  deviceType : String
  hasGps : Bool
  accuracy : JsVal
  deriving DecidableEq, Repr

namespace Location

/-- `Location._detectDeviceCapabilities` (lines 161-214): classify the
device from the user-agent, then run the raced high-accuracy read; on
failure `hasGps = false` and the accuracy stays `Infinity`; on success
apply the class-dependent threshold (mobile `< 100`, tablet `< 200`,
desktop never). -/
def detectDeviceCapabilities (env : Env) : DeviceInfo :=
  let isMobile := testMobileUA env.userAgent
  let isTablet := testTabletUA env.userAgent
  let deviceType := if isMobile then "移动设备" else if isTablet then "平板设备" else "桌面设备"
  let read := if env.hasGeolocation then env.capabilityRead
              else Except.error "浏览器不支持定位API"
  match read with
  | .error _ =>
    { isMobile, isTablet, deviceType, hasGps := false, accuracy := .inf }
  | .ok position =>
    let locationAccuracy := position.accuracy
    let hasGps :=
      if isMobile then decide (locationAccuracy < 100)
      else if isTablet then decide (locationAccuracy < 200)
      else false
    { isMobile, isTablet, deviceType, hasGps, accuracy := .num locationAccuracy }

end Location

/-! ### `Location._getGpsLocation` (lines 219-243) and
`Location._getHtml5Location` (lines 319-343) -/

/-- Outcome of one sensor-fix strategy: the resolved object
`{success: true, coords}` or `{success: false, error}`. -/
inductive FixResult where
  | ok (coords : Coords)
  | fail (error : String)
  deriving DecidableEq, Repr

/-- The `success` field of a sensor-fix outcome. -/
def FixResult.success : FixResult → Bool
  | .ok _ => true
  | .fail _ => false

namespace Location

/-- `Location._getGpsLocation` (lines 219-243): high-accuracy
`getCurrentPosition`; an absent geolocation API resolves to a failure
outcome instead of rejecting. -/
def getGpsLocation (env : Env) : FixResult :=
  if !env.hasGeolocation then .fail "浏览器不支持地理位置API"
  else
    match env.gpsRead with
    | .ok position => .ok position
    | .error e => .fail e

/-- `Location._getHtml5Location` (lines 319-343): low-accuracy
`getCurrentPosition` with the same resolution shape as
`_getGpsLocation`. -/
def getHtml5Location (env : Env) : FixResult :=
  if !env.hasGeolocation then .fail "浏览器不支持地理位置API"
  else
    match env.html5Read with
    | .ok position => .ok position
    | .error e => .fail e

end Location

/-! ### `Location._getIpLocation` (lines 248-314) -/

/-- The normalized per-service location payload produced by a service's
`parse` function. -/
structure IpPayload where
  latitude : JsVal
  longitude : JsVal
  accuracy : JsVal
  city : Option String
  country : Option String
  operator : String
  deriving DecidableEq, Repr

/-- A possibly-undefined rational field of a JSON body, as a JS value. -/
def jsNumOpt (q : Option ℚ) : JsVal :=
  match q with
  | some v => .num v
  | none => .jsUndefined

/-- The `parse` function of the `ipinfo` service (lines 253-263):
`data.loc.split(',')` throws when `loc` is absent; otherwise the two
halves go through `parseFloat`, accuracy is the constant 10000 and the
operator string is `data.org || "未知"`. -/
def ipinfoParse (d : IpData) : Except String IpPayload :=
  match d.loc with
  | none => .error "TypeError: data.loc is undefined"
  | some loc =>
    let parts := jsSplitComma loc
    .ok { latitude := jsParseFloatOpt parts[0]?
        , longitude := jsParseFloatOpt parts[1]?
        , accuracy := .num 10000
        , city := d.city
        , country := d.country
        , operator := jsOrStr d.org "未知" }

/-- The `parse` function of the `ip-api` service (lines 268-275): field
renaming only, accuracy constant 50000, operator `data.isp || "未知"`;
it never throws. -/
def ipapiParse (d : IpData) : Except String IpPayload :=
  .ok { latitude := jsNumOpt d.lat
      , longitude := jsNumOpt d.lon
      , accuracy := .num 50000
      , city := d.city
      , country := d.country
      , operator := jsOrStr d.isp "未知" }

/-- The `parse` function of the `geoplugin` service (lines 280-287):
`parseFloat` of the string coordinate fields, accuracy constant 50000,
operator fixed to `"未知"`; it never throws. -/
def geopluginParse (d : IpData) : Except String IpPayload :=
  .ok { latitude := jsParseFloatOpt d.geoplugin_latitude
      , longitude := jsParseFloatOpt d.geoplugin_longitude
      , city := d.geoplugin_city
      , country := d.geoplugin_countryName
      , accuracy := .num 50000
      , operator := "未知" }

/-- One entry of the `ipServices` table (lines 249-289). -/
structure IpService where
  name : String
  url : String
  parse : IpData → Except String IpPayload

/-- The `ipServices` list, in its declared order (lines 249-289). -/
def ipServices : List IpService :=
  [ { name := "ipinfo", url := "https://ipinfo.io/json", parse := ipinfoParse }
  , { name := "ip-api", url := "http://ip-api.com/json", parse := ipapiParse }
  , { name := "geoplugin", url := "https://www.geoplugin.net/json.gp", parse := geopluginParse } ]

/-- The value `_getIpLocation` resolves to: `{success: true, ...payload}`
or `{success: false, error}`. -/
structure IpResult where
  success : Bool
  payload : Option IpPayload
  error : Option String
  deriving DecidableEq, Repr

/-- One iteration body of the `for` loop of `_getIpLocation`
(lines 291-311): fetch (may reject), throw on a non-ok status, parse the
JSON body (may throw), run the service parser (may throw); any thrown
error is the caught-and-logged per-service failure. -/
def tryIpService (f : FetchOutcome) (svc : IpService) : Except String IpPayload :=
  match f with
  | .fail m => .error m
  | .resp response =>
    if !response.ok then .error ("服务响应错误: " ++ toString response.status)
    else
      match response.json with
      | .error m => .error m
      | .ok data => svc.parse data

/-- The `for` loop of `_getIpLocation` (lines 291-313) over the remaining
services paired with their fetch outcomes: return on the first service
whose trial succeeds, continue past failures, and produce the aggregate
failure `{success: false, error: "所有IP定位服务失败"}` when the list is
exhausted. -/
def ipLookupLoop : List (IpService × FetchOutcome) → IpResult
  | [] => { success := false, payload := none, error := some "所有IP定位服务失败" }
  | (svc, f) :: rest =>
    match tryIpService f svc with
    | .ok location => { success := true, payload := some location, error := none }
    | .error _ => ipLookupLoop rest

/-- The fetch outcomes of one call, in the order of `ipServices`. -/
def envFetches (env : Env) : List FetchOutcome :=
  [env.ipinfoFetch, env.ipapiFetch, env.geopluginFetch]

namespace Location

/-- `Location._getIpLocation` (lines 248-314): run the service loop over
the declared service list. -/
def getIpLocation (env : Env) : IpResult :=
  ipLookupLoop (ipServices.zip (envFetches env))

end Location

/-! ### `Location._formatOperatorName` (lines 389-418) -/

/-- The `asMap` table (lines 394-399). -/
def asMap : List (String × String) :=
  [ ("AS4134", "中国电信")
  , ("AS9808", "中国移动")
  , ("AS4837", "中国联通")
  , ("AS58453", "中国广电") ]

/-- `asMap[operator]` (line 400): association lookup, case-sensitive. -/
def asMapLookup (s : String) : Option String :=
  (asMap.find? (fun p => p.1 = s)).map (fun p => p.2)

/-- The AS-number regex test (line 393): literal `AS` followed by one or
more ASCII digits and nothing else (case-sensitive, anchored both ends). -/
def isAsCode (s : String) : Bool :=
  match s.data with
  | 'A' :: 'S' :: rest => !rest.isEmpty && rest.all Char.isDigit
  | _ => false

/-- The `operatorMap` variant table (lines 404-409): each entry is the
literal alternatives of one case-insensitive regex together with the
canonical carrier name. -/
def operatorVariants : List (List String × String) :=
  [ (["中国移动", "China Mobile"], "中国移动")
  , (["中国电信", "China Telecom", "AS4134"], "中国电信")
  , (["中国联通", "China Unicom", "AS4837"], "中国联通")
  , (["中国广电", "AS58453"], "中国广电") ]

/-- The `for` loop over `operatorMap` (lines 411-415): the first entry
whose regex matches, if any. -/
def operatorVariantMatch (s : String) : Option String :=
  (operatorVariants.find? (fun p => testAnyCI p.1 s)).map (fun p => p.2)

namespace Location

/-- `Location._formatOperatorName` (lines 389-418).  The argument is
`none` when the call site passes an absent field (`undefined`); `!operator`
is true for `undefined` and for the empty string. -/
def formatOperatorName (op : Option String) : String :=
  match op with
  | none => "未知"
  | some s =>
    if s = "" || s = "未知" then "未知"
    else if isAsCode s then
      match asMapLookup s with
      | some n => n
      | none => "AS号码: " ++ s
    else
      match operatorVariantMatch s with
      | some n => n
      | none => (jsSplitWsHyphen s).headD ""

end Location

/-! ### `Location._formatResult` (lines 348-384) -/

/-- The `source` argument at the three call sites of `_formatResult`
inside `getGeoLocation`.  (The JS function also has a trailing
`return data` for any other source string; no call site reaches it, and
it is not modelled.) -/
inductive Source where
  | GPS
  | IP
  | HTML5
  deriving DecidableEq, Repr

/-- The source label written into the formatted record. -/
def Source.label : Source → String
  | .GPS => "GPS"
  | .IP => "IP"
  | .HTML5 => "HTML5"

/-- The `data` argument of `_formatResult`: either a sensor-fix outcome
(`{success, coords}` shape) or an IP-lookup outcome
(`{success, ...payload}` shape). -/
inductive FormatData where
  | sensor (r : FixResult)
  | ipRes (r : IpResult)
  deriving DecidableEq, Repr

/-- `data.success`. -/
def FormatData.success : FormatData → Bool
  | .sensor r => r.success
  | .ipRes r => r.success

/-- `data.error` (undefined on the success shapes). -/
def FormatData.errorMsg : FormatData → Option String
  | .sensor (.ok _) => none
  | .sensor (.fail e) => some e
  | .ipRes r => r.error

/-- `data.coords`: present only on a successful sensor outcome. -/
def FormatData.coords : FormatData → Option Coords
  | .sensor (.ok c) => some c
  | _ => none

/-- `data.latitude`: present only on a successful IP outcome, otherwise
`undefined`. -/
def FormatData.ipLatitude : FormatData → JsVal
  | .ipRes { payload := some p, .. } => p.latitude
  | _ => .jsUndefined

/-- `data.longitude`. -/
def FormatData.ipLongitude : FormatData → JsVal
  | .ipRes { payload := some p, .. } => p.longitude
  | _ => .jsUndefined

/-- `data.accuracy`. -/
def FormatData.ipAccuracy : FormatData → JsVal
  | .ipRes { payload := some p, .. } => p.accuracy
  | _ => .jsUndefined

/-- `data.city`. -/
def FormatData.ipCity : FormatData → Option String
  | .ipRes { payload := some p, .. } => p.city
  | _ => none

/-- `data.country`. -/
def FormatData.ipCountry : FormatData → Option String
  | .ipRes { payload := some p, .. } => p.country
  | _ => none

/-- `data.operator`. -/
def FormatData.ipOperator : FormatData → Option String
  | .ipRes { payload := some p, .. } => some p.operator
  | _ => none

/-- The record produced by `_formatResult`, before network metadata is
merged in.  `city`/`country`/`error` are `none` where the JS object
carries no such field. -/
structure Formatted where
  longitude : JsVal
  latitude : JsVal
  accuracy : JsVal
  source : String
  timestamp : Nat
  city : Option String
  country : Option String
  operator : String
  error : Option String
  deriving DecidableEq, Repr

namespace Location

/-- `Location._formatResult` (lines 348-384).  An `Except.error` models
the TypeError thrown when `data.coords.longitude` is read off a
coords-less object (impossible at the actual call sites, which pass
matching shapes). -/
def formatResult (data : FormatData) (source : Source) (now : Nat) :
    Except String Formatted :=
  if !data.success then
    .ok { longitude := .str "定位失败", latitude := .str "定位失败"
        , accuracy := .inf, source := source.label, timestamp := now
        , city := none, country := none, operator := "未知"
        , error := some (jsOrStr data.errorMsg "未知错误") }
  else
    match source with
    | .GPS | .HTML5 =>
      match data.coords with
      | some c =>
        .ok { longitude := .num c.longitude, latitude := .num c.latitude
            , accuracy := .num c.accuracy, source := source.label
            , timestamp := now, city := none, country := none
            , operator := "未知", error := none }
      | none => .error "TypeError: data.coords is undefined"
    | .IP =>
      .ok { longitude := data.ipLongitude, latitude := data.ipLatitude
          , accuracy := data.ipAccuracy, source := Source.label .IP
          , timestamp := now, city := some (jsOrStr data.ipCity "")
          , country := some (jsOrStr data.ipCountry "")
          , operator := formatOperatorName data.ipOperator, error := none }

end Location

/-! ### `Location.getGeoLocation` (lines 10-64) and
`Location._mergeResults` (lines 69-75) -/

/-- The record `getGeoLocation` resolves to. -/
structure LocationResult where
  longitude : JsVal
  latitude : JsVal
  accuracy : JsVal
  source : String
  timestamp : Nat
  city : Option String
  country : Option String
  operator : String
  networkType : String
  isWiFi : Bool
  error : Option String
  deriving DecidableEq, Repr

/-- The initial `result` object of `getGeoLocation` (lines 14-26). -/
def initResult (now : Nat) : LocationResult :=
  { longitude := .str "未定位", latitude := .str "未定位", accuracy := .inf
  , source := "未知", timestamp := now, city := some "", country := some ""
  , operator := "未知", networkType := "未知", isWiFi := false, error := none }

namespace Location

/-- `Location._mergeResults` (lines 69-75): spread the formatted record
and overwrite `networkType`/`isWiFi` with the probed values. -/
def mergeResults (locationResult : Formatted) (networkInfo : NetworkInfo) :
    LocationResult :=
  { longitude := locationResult.longitude, latitude := locationResult.latitude
  , accuracy := locationResult.accuracy, source := locationResult.source
  , timestamp := locationResult.timestamp, city := locationResult.city
  , country := locationResult.country, operator := locationResult.operator
  , networkType := networkInfo.networkType, isWiFi := networkInfo.isWiFi
  , error := locationResult.error }

end Location

/-- The eligibility guard of the high-accuracy branch (line 38):
`deviceInfo.hasGps && deviceInfo.accuracy < 500`. -/
def gpsEligible (env : Env) : Bool :=
  (Location.detectDeviceCapabilities env).hasGps &&
    JsVal.ltNum (Location.detectDeviceCapabilities env).accuracy 500

namespace Location

/-- The `try` block of `getGeoLocation` (lines 28-58): probe network and
device, attempt the eligible strategies in order, and `throw` the
aggregate error when all of them fail.  An `Except.error` is a thrown JS
exception. -/
def getGeoLocationTry (env : Env) : Except String LocationResult :=
  let networkInfo := getNetworkInfo env
  let deviceInfo := detectDeviceCapabilities env
  let ipThenHtml : Except String LocationResult :=
    let ipResult := getIpLocation env
    if ipResult.success then
      (formatResult (.ipRes ipResult) .IP env.now).map
        (fun f => mergeResults f networkInfo)
    else
      let htmlResult := getHtml5Location env
      if htmlResult.success then
        (formatResult (.sensor htmlResult) .HTML5 env.now).map
          (fun f => mergeResults f networkInfo)
      else .error "所有定位方法均失败"
  if gpsEligible env then
    let gpsResult := getGpsLocation env
    if gpsResult.success then
      (formatResult (.sensor gpsResult) .GPS env.now).map
        (fun f => mergeResults f networkInfo)
    else ipThenHtml
  else ipThenHtml

/-- `Location.getGeoLocation` (lines 10-64): the `try` block above with
its `catch` — any thrown error lands in the initial result object, whose
`networkType`/`isWiFi` were assigned from the probe before any strategy
ran (lines 30-32), with `error` set to the exception message. -/
def getGeoLocation (env : Env) : LocationResult :=
  let result := initResult env.now
  let networkInfo := getNetworkInfo env
  match getGeoLocationTry env with
  | .ok r => r
  | .error msg =>
    { result with
        networkType := networkInfo.networkType,
        isWiFi := networkInfo.isWiFi,
        error := some msg }

end Location

/-! ### Derived views of the resolver's control flow, used to state the
ordering claims -/

/-- The three positioning strategies, in the fixed order the resolver
considers them. -/
inductive Strategy where
  | gps
  | ip
  | html5
  deriving DecidableEq, Repr

/-- The source label a success of this strategy is tagged with. -/
def Strategy.label : Strategy → String
  | .gps => "GPS"
  | .ip => "IP"
  | .html5 => "HTML5"

/-- Whether a strategy, if attempted in `env`, succeeds. -/
def strategySucceeds (env : Env) : Strategy → Bool
  | .gps => (Location.getGpsLocation env).success
  | .ip => (Location.getIpLocation env).success
  | .html5 => (Location.getHtml5Location env).success

/-- The sequence of strategies `getGeoLocation` attempts in `env`,
transcribed from the branch structure of lines 37-55: the guarded GPS
attempt, then IP, then HTML5, stopping after the first success. -/
def attempts (env : Env) : List Strategy :=
  if gpsEligible env then
    if strategySucceeds env .gps then [.gps]
    else if strategySucceeds env .ip then [.gps, .ip]
    else [.gps, .ip, .html5]
  else
    if strategySucceeds env .ip then [.ip]
    else [.ip, .html5]

/-! ### Concrete environments used as witnesses and scenario inputs -/

/-- A desktop host with no connection object, no geolocation API and no
network: every strategy fails. -/
def envAllFail : Env :=
  { userAgent := "Mozilla/5.0 (Windows NT 10.0; Win64; x64)"
  , connection := none
  , hasGeolocation := false
  , capabilityRead := .error "浏览器不支持定位API"
  , gpsRead := .error "浏览器不支持定位API"
  , html5Read := .error "浏览器不支持定位API"
  , ipinfoFetch := .fail "Failed to fetch"
  , ipapiFetch := .fail "Failed to fetch"
  , geopluginFetch := .fail "Failed to fetch"
  , now := 1755513150744 }

/-- The response body of scenario A's first IP service. -/
def scenarioAData : IpData :=
  { loc := some "29.56,106.56", city := some "Chongqing"
  , country := some "CN", org := some "AS4134" }

/-- Scenario A: sensor API absent, the first IP service answers with the
Chongqing body. -/
def envScenarioA : Env :=
  { userAgent := "Mozilla/5.0 (Windows NT 10.0; Win64; x64)"
  , connection := none
  , hasGeolocation := false
  , capabilityRead := .error "浏览器不支持定位API"
  , gpsRead := .error "浏览器不支持定位API"
  , html5Read := .error "浏览器不支持定位API"
  , ipinfoFetch := .resp { ok := true, status := 200, json := .ok scenarioAData }
  , ipapiFetch := .fail "Failed to fetch"
  , geopluginFetch := .fail "Failed to fetch"
  , now := 1755513150744 }

/-- A mobile host whose capability probe succeeds with accuracy 50 m. -/
def envMobileProbe : Env :=
  { userAgent := "Mozilla/5.0 (iPhone; CPU iPhone OS 16_0 like Mac OS X)"
  , connection := none
  , hasGeolocation := true
  , capabilityRead := .ok { latitude := 29, longitude := 106, accuracy := 50 }
  , gpsRead := .ok { latitude := 29, longitude := 106, accuracy := 50 }
  , html5Read := .ok { latitude := 29, longitude := 106, accuracy := 50 }
  , ipinfoFetch := .fail "Failed to fetch"
  , ipapiFetch := .fail "Failed to fetch"
  , geopluginFetch := .fail "Failed to fetch"
  , now := 1755513150744 }

/-- A desktop host whose connection object has an effective-speed class
but no link-type field. -/
def envDesktopConn : Env :=
  { userAgent := "Mozilla/5.0 (X11; Linux x86_64)"
  , connection := some { type := none, effectiveType := some "4g" }
  , hasGeolocation := false
  , capabilityRead := .error "浏览器不支持定位API"
  , gpsRead := .error "浏览器不支持定位API"
  , html5Read := .error "浏览器不支持定位API"
  , ipinfoFetch := .fail "Failed to fetch"
  , ipapiFetch := .fail "Failed to fetch"
  , geopluginFetch := .fail "Failed to fetch"
  , now := 1755513150744 }

/-- The operator-resolution procedure in the words of the amended claim:
(1) exact lookup in the AS-number table; (1b) otherwise a raw string of
the pure AS-number form yields the labeled string `"AS号码: " ++ raw`
without falling through; (2) otherwise regex match against the known
carrier-name variants; (3) otherwise the first whitespace- or
hyphen-delimited token of the raw string; empty or missing input (or the
`"未知"` sentinel itself) yields `"未知"`. -/
def operatorResolutionAmended (op : Option String) : String :=
  match op with
  | none => "未知"
  | some raw =>
    if raw = "" ∨ raw = "未知" then "未知"
    else
      match asMapLookup raw with
      | some canonical => canonical
      | none =>
        if isAsCode raw then "AS号码: " ++ raw
        else
          match operatorVariantMatch raw with
          | some canonical => canonical
          | none => (jsSplitWsHyphen raw).headD ""

/-! ### Case lemmas for the resolver's four terminal outcomes -/

/-- A sensor-fix outcome is successful exactly when it carries coords. -/
theorem FixResult.success_iff (r : FixResult) :
    r.success = true ↔ ∃ c, r = .ok c := by
  cases r <;> simp [FixResult.success]

/-- A sensor-fix outcome is unsuccessful exactly when it carries an error
message. -/
theorem FixResult.fail_iff (r : FixResult) :
    r.success = false ↔ ∃ e, r = .fail e := by
  cases r <;> simp [FixResult.success]

/-- Terminal 1: the guard holds and the high-accuracy fix succeeds. -/
theorem geo_gps_case (env : Env) (c : Coords)
    (hE : gpsEligible env = true)
    (hc : Location.getGpsLocation env = .ok c) :
    Location.getGeoLocation env = Location.mergeResults
      { longitude := .num c.longitude, latitude := .num c.latitude
      , accuracy := .num c.accuracy, source := "GPS", timestamp := env.now
      , city := none, country := none, operator := "未知", error := none }
      (Location.getNetworkInfo env) := by
  unfold Location.getGeoLocation Location.getGeoLocationTry
  simp [hE, hc, FixResult.success, Location.formatResult, FormatData.success,
    FormatData.coords, Source.label, Except.map]

/-- Terminal 2: the high-accuracy branch is skipped or fails, and the IP
lookup succeeds. -/
theorem geo_ip_case (env : Env)
    (hno : gpsEligible env = false ∨ (Location.getGpsLocation env).success = false)
    (hi : (Location.getIpLocation env).success = true) :
    Location.getGeoLocation env = Location.mergeResults
      { longitude := FormatData.ipLongitude (.ipRes (Location.getIpLocation env))
      , latitude := FormatData.ipLatitude (.ipRes (Location.getIpLocation env))
      , accuracy := FormatData.ipAccuracy (.ipRes (Location.getIpLocation env))
      , source := "IP", timestamp := env.now
      , city := some (jsOrStr (FormatData.ipCity (.ipRes (Location.getIpLocation env))) "")
      , country := some (jsOrStr (FormatData.ipCountry (.ipRes (Location.getIpLocation env))) "")
      , operator := Location.formatOperatorName
          (FormatData.ipOperator (.ipRes (Location.getIpLocation env)))
      , error := none }
      (Location.getNetworkInfo env) := by
  unfold Location.getGeoLocation Location.getGeoLocationTry
  rcases hno with h | h
  · simp [h, hi, Location.formatResult, FormatData.success, Source.label, Except.map]
  · rcases (FixResult.fail_iff _).mp h with ⟨e, he⟩
    cases hE : gpsEligible env <;>
      simp [hE, he, hi, FixResult.success, Location.formatResult, FormatData.success,
        Source.label, Except.map]

/-- Terminal 3: GPS skipped or failed, IP failed, and the low-accuracy
fix succeeds. -/
theorem geo_html_case (env : Env) (c : Coords)
    (hno : gpsEligible env = false ∨ (Location.getGpsLocation env).success = false)
    (hi : (Location.getIpLocation env).success = false)
    (hc : Location.getHtml5Location env = .ok c) :
    Location.getGeoLocation env = Location.mergeResults
      { longitude := .num c.longitude, latitude := .num c.latitude
      , accuracy := .num c.accuracy, source := "HTML5", timestamp := env.now
      , city := none, country := none, operator := "未知", error := none }
      (Location.getNetworkInfo env) := by
  unfold Location.getGeoLocation Location.getGeoLocationTry
  rcases hno with h | h
  · simp [h, hi, hc, FixResult.success, Location.formatResult, FormatData.success,
      FormatData.coords, Source.label, Except.map]
  · rcases (FixResult.fail_iff _).mp h with ⟨e, he⟩
    cases hE : gpsEligible env <;>
      simp [hE, he, hi, hc, FixResult.success, Location.formatResult, FormatData.success,
        FormatData.coords, Source.label, Except.map]

/-- Terminal 4: every attempted strategy fails; the thrown aggregate
error is caught into the initial record, which already carries the probed
network fields. -/
theorem geo_fail_case (env : Env)
    (hno : gpsEligible env = false ∨ (Location.getGpsLocation env).success = false)
    (hi : (Location.getIpLocation env).success = false)
    (hh : (Location.getHtml5Location env).success = false) :
    Location.getGeoLocation env =
      { initResult env.now with
          networkType := (Location.getNetworkInfo env).networkType,
          isWiFi := (Location.getNetworkInfo env).isWiFi,
          error := some "所有定位方法均失败" } := by
  unfold Location.getGeoLocation Location.getGeoLocationTry
  rcases (FixResult.fail_iff _).mp hh with ⟨e2, he2⟩
  rcases hno with h | h
  · simp [h, hi, he2, FixResult.success]
  · rcases (FixResult.fail_iff _).mp h with ⟨e, he⟩
    cases hE : gpsEligible env <;> simp [hE, he, hi, he2, FixResult.success]

/-! ### Claim theorems -/

/-- C2: `getGeoLocation` never throws — for every environment (every
combination of probe, sensor and service outcomes) the `try` block's
outcome is caught: either it produced a record, which is returned as is,
or it threw a message, and the returned record is the initial record
carrying that message in its `error` field.  In the embedding a thrown
JS exception is an `Except.error` of `getGeoLocationTry`, and the total
function `getGeoLocation` never propagates it. -/
theorem getGeoLocation_never_throws (env : Env) :
    (∃ r, Location.getGeoLocationTry env = .ok r ∧ Location.getGeoLocation env = r) ∨
    (∃ msg, Location.getGeoLocationTry env = .error msg ∧
      Location.getGeoLocation env =
        { initResult env.now with
            networkType := (Location.getNetworkInfo env).networkType,
            isWiFi := (Location.getNetworkInfo env).isWiFi,
            error := some msg } ∧
      (Location.getGeoLocation env).error = some msg) := by
  cases h : Location.getGeoLocationTry env with
  | ok r =>
    exact Or.inl ⟨r, rfl, by unfold Location.getGeoLocation; rw [h]⟩
  | error msg =>
    refine Or.inr ⟨msg, rfl, ?_, ?_⟩ <;> unfold Location.getGeoLocation <;> rw [h]

/-- C4: when the high-accuracy fix, the IP lookup and the low-accuracy
fix all fail, `getGeoLocation` returns the sentinel record: unlocated
coordinates, infinite accuracy, unknown source, and the aggregate error
message, with the probed network fields merged in. -/
theorem getGeoLocation_all_failed_sentinel (env : Env)
    (hg : (Location.getGpsLocation env).success = false)
    (hi : (Location.getIpLocation env).success = false)
    (hh : (Location.getHtml5Location env).success = false) :
    Location.getGeoLocation env =
      { longitude := .str "未定位", latitude := .str "未定位", accuracy := .inf
      , source := "未知", timestamp := env.now, city := some "", country := some ""
      , operator := "未知"
      , networkType := (Location.getNetworkInfo env).networkType
      , isWiFi := (Location.getNetworkInfo env).isWiFi
      , error := some "所有定位方法均失败" } := by
  rw [geo_fail_case env (Or.inr hg) hi hh]
  rfl

/-- Witness for C4 at `envAllFail`: every strategy fails there, and the
result is the sentinel record (on this desktop host the probed network
classification is WiFi/wired). -/
theorem getGeoLocation_all_failed_sentinel_witness :
    (Location.getGpsLocation envAllFail).success = false ∧
    (Location.getIpLocation envAllFail).success = false ∧
    (Location.getHtml5Location envAllFail).success = false ∧
    Location.getGeoLocation envAllFail =
      { longitude := .str "未定位", latitude := .str "未定位", accuracy := .inf
      , source := "未知", timestamp := envAllFail.now, city := some ""
      , country := some "", operator := "未知"
      , networkType := (Location.getNetworkInfo envAllFail).networkType
      , isWiFi := (Location.getNetworkInfo envAllFail).isWiFi
      , error := some "所有定位方法均失败" } :=
  ⟨by decide, by decide, by decide,
    getGeoLocation_all_failed_sentinel envAllFail (by decide) (by decide) (by decide)⟩

/-- C7: a present connection object without a link-type field on a
desktop-classified host forces `networkType = "WiFi/有线网络"` and
`isWiFi = true`, whatever the effective-speed-class field holds. -/
theorem getNetworkInfo_desktop_without_type (env : Env) (c : ConnState)
    (hc : env.connection = some c) (ht : c.type = none)
    (hd : testMobileUA env.userAgent = false) :
    Location.getNetworkInfo env = { networkType := "WiFi/有线网络", isWiFi := true } := by
  unfold Location.getNetworkInfo
  rw [hc]
  simp [ht, hd]

/-- Witness for C7 at `envDesktopConn`, whose connection object carries
`effectiveType = "4g"` and no `type` field. -/
theorem getNetworkInfo_desktop_without_type_witness :
    envDesktopConn.connection = some { type := none, effectiveType := some "4g" } ∧
    (ConnState.type { type := none, effectiveType := some "4g" }) = none ∧
    testMobileUA envDesktopConn.userAgent = false ∧
    Location.getNetworkInfo envDesktopConn =
      { networkType := "WiFi/有线网络", isWiFi := true } :=
  ⟨rfl, rfl, by decide,
    getNetworkInfo_desktop_without_type envDesktopConn
      { type := none, effectiveType := some "4g" } rfl rfl (by decide)⟩

/-- C10: whatever the outcome, the returned record's `networkType` and
`isWiFi` equal the values the network probe produced at the start of the
call: successes re-merge them, and the failure record was assigned them
before any strategy ran. -/
theorem getGeoLocation_carries_probed_network (env : Env) :
    (Location.getGeoLocation env).networkType = (Location.getNetworkInfo env).networkType ∧
    (Location.getGeoLocation env).isWiFi = (Location.getNetworkInfo env).isWiFi := by
  cases hE : gpsEligible env with
  | true =>
    cases hg : (Location.getGpsLocation env).success with
    | true =>
      rcases (FixResult.success_iff _).mp hg with ⟨c, hc⟩
      rw [geo_gps_case env c hE hc]
      exact ⟨rfl, rfl⟩
    | false =>
      cases hi : (Location.getIpLocation env).success with
      | true =>
        rw [geo_ip_case env (Or.inr hg) hi]
        exact ⟨rfl, rfl⟩
      | false =>
        cases hh : (Location.getHtml5Location env).success with
        | true =>
          rcases (FixResult.success_iff _).mp hh with ⟨c, hc⟩
          rw [geo_html_case env c (Or.inr hg) hi hc]
          exact ⟨rfl, rfl⟩
        | false =>
          rw [geo_fail_case env (Or.inr hg) hi hh]
          exact ⟨rfl, rfl⟩
  | false =>
    cases hi : (Location.getIpLocation env).success with
    | true =>
      rw [geo_ip_case env (Or.inl hE) hi]
      exact ⟨rfl, rfl⟩
    | false =>
      cases hh : (Location.getHtml5Location env).success with
      | true =>
        rcases (FixResult.success_iff _).mp hh with ⟨c, hc⟩
        rw [geo_html_case env c (Or.inl hE) hi hc]
        exact ⟨rfl, rfl⟩
      | false =>
        rw [geo_fail_case env (Or.inl hE) hi hh]
        exact ⟨rfl, rfl⟩

/-- C5: on any failed capability read the probe reports no sensor and
infinite accuracy; on a successful read with accuracy `a` the sensor flag
is exactly `a < 100` on a mobile-classified device, exactly `a < 200` on
a tablet-classified device, and always false on a desktop-classified
device. -/
theorem detectDeviceCapabilities_thresholds (env : Env) :
    ((env.hasGeolocation = false ∨ (∃ e, env.capabilityRead = Except.error e)) →
      (Location.detectDeviceCapabilities env).hasGps = false ∧
      (Location.detectDeviceCapabilities env).accuracy = JsVal.inf) ∧
    (∀ pos : Coords, env.hasGeolocation = true → env.capabilityRead = Except.ok pos →
      ((Location.detectDeviceCapabilities env).deviceType = "移动设备" →
        ((Location.detectDeviceCapabilities env).hasGps = true ↔ pos.accuracy < 100)) ∧
      ((Location.detectDeviceCapabilities env).deviceType = "平板设备" →
        ((Location.detectDeviceCapabilities env).hasGps = true ↔ pos.accuracy < 200)) ∧
      ((Location.detectDeviceCapabilities env).deviceType = "桌面设备" →
        (Location.detectDeviceCapabilities env).hasGps = false)) := by
  constructor
  · intro h
    unfold Location.detectDeviceCapabilities
    rcases h with h | ⟨e, he⟩
    · simp [h]
    · cases hG : env.hasGeolocation <;> simp [hG, he]
  · intro pos hG hR
    unfold Location.detectDeviceCapabilities
    rw [hG]
    simp only [if_true, Bool.true_eq_false]
    rw [hR]
    cases hM : testMobileUA env.userAgent with
    | true => simp [hM]
    | false =>
      cases hT : testTabletUA env.userAgent with
      | true => simp [hM, hT]
      | false => simp [hM, hT]

/-- Witness for C5 at `envMobileProbe`: a mobile-classified host whose
probe read succeeds with accuracy 50 m gets `hasGps = true`. -/
theorem detectDeviceCapabilities_thresholds_witness :
    envMobileProbe.hasGeolocation = true ∧
    envMobileProbe.capabilityRead = Except.ok { latitude := 29, longitude := 106, accuracy := 50 } ∧
    (Location.detectDeviceCapabilities envMobileProbe).deviceType = "移动设备" ∧
    (Location.detectDeviceCapabilities envMobileProbe).hasGps = true :=
  ⟨rfl, rfl, by decide,
    (((detectDeviceCapabilities_thresholds envMobileProbe).2
        { latitude := 29, longitude := 106, accuracy := 50 } rfl rfl).1
      (by decide)).mpr (by decide)⟩

/-- C1: per call, the attempt sequence is a subsequence of
GPS, IP, HTML5 in that order with no repetition; the GPS strategy is
attempted exactly when the capability probe reported a sensor with
accuracy below 500 m, IP exactly when GPS was skipped or failed, HTML5
exactly when IP was attempted and failed; every attempt before the last
one failed, and if the last attempt succeeded the call terminates with
that strategy's source label and no error. -/
theorem getGeoLocation_attempt_order (env : Env) :
    List.Sublist (attempts env) [Strategy.gps, Strategy.ip, Strategy.html5] ∧
    (attempts env).Nodup ∧
    (Strategy.gps ∈ attempts env ↔ gpsEligible env = true) ∧
    (Strategy.ip ∈ attempts env ↔
      ¬(gpsEligible env = true ∧ strategySucceeds env .gps = true)) ∧
    (Strategy.html5 ∈ attempts env ↔
      (Strategy.ip ∈ attempts env ∧ strategySucceeds env .ip = false)) ∧
    (∀ s ∈ (attempts env).dropLast, strategySucceeds env s = false) ∧
    (∀ s, (attempts env).getLast? = some s → strategySucceeds env s = true →
      (Location.getGeoLocation env).source = s.label ∧
      (Location.getGeoLocation env).error = none) := by
  cases hE : gpsEligible env with
  | true =>
    cases hg : (Location.getGpsLocation env).success with
    | true =>
      have hA : attempts env = [.gps] := by
        simp [attempts, hE, strategySucceeds, hg]
      rcases (FixResult.success_iff _).mp hg with ⟨c, hc⟩
      have hres := geo_gps_case env c hE hc
      refine ⟨by simp only [hA]; decide, by simp only [hA]; decide, ?_, ?_, ?_, ?_, ?_⟩
      · rw [hA]; simp [hE]
      · rw [hA]; simp [hE, strategySucceeds, hg]
      · rw [hA]; simp
      · rw [hA]; simp
      · rw [hA]
        intro s hs hsucc
        cases hs
        exact ⟨by rw [hres]; rfl, by rw [hres]; rfl⟩
    | false =>
      cases hi : (Location.getIpLocation env).success with
      | true =>
        have hA : attempts env = [.gps, .ip] := by
          simp [attempts, hE, strategySucceeds, hg, hi]
        have hres := geo_ip_case env (Or.inr hg) hi
        refine ⟨by simp only [hA]; decide, by simp only [hA]; decide, ?_, ?_, ?_, ?_, ?_⟩
        · rw [hA]; simp [hE]
        · rw [hA]; simp [hE, strategySucceeds, hg]
        · rw [hA]; simp [strategySucceeds, hi]
        · rw [hA]
          intro s hs
          simp at hs
          subst hs
          exact hg
        · rw [hA]
          intro s hs hsucc
          cases hs
          exact ⟨by rw [hres]; rfl, by rw [hres]; rfl⟩
      | false =>
        have hA : attempts env = [.gps, .ip, .html5] := by
          simp [attempts, hE, strategySucceeds, hg, hi]
        refine ⟨by simp only [hA]; decide, by simp only [hA]; decide, ?_, ?_, ?_, ?_, ?_⟩
        · rw [hA]; simp [hE]
        · rw [hA]; simp [hE, strategySucceeds, hg]
        · rw [hA]; simp [strategySucceeds, hi]
        · rw [hA]
          intro s hs
          simp at hs
          rcases hs with rfl | rfl
          · exact hg
          · exact hi
        · rw [hA]
          intro s hs hsucc
          cases hs
          rcases (FixResult.success_iff _).mp hsucc with ⟨c, hc⟩
          have hres := geo_html_case env c (Or.inr hg) hi hc
          exact ⟨by rw [hres]; rfl, by rw [hres]; rfl⟩
  | false =>
    cases hi : (Location.getIpLocation env).success with
    | true =>
      have hA : attempts env = [.ip] := by
        simp [attempts, hE, strategySucceeds, hi]
      have hres := geo_ip_case env (Or.inl hE) hi
      refine ⟨by simp only [hA]; decide, by simp only [hA]; decide, ?_, ?_, ?_, ?_, ?_⟩
      · rw [hA]; simp [hE]
      · rw [hA]; simp [hE]
      · rw [hA]; simp [strategySucceeds, hi]
      · rw [hA]; simp
      · rw [hA]
        intro s hs hsucc
        cases hs
        exact ⟨by rw [hres]; rfl, by rw [hres]; rfl⟩
    | false =>
      have hA : attempts env = [.ip, .html5] := by
        simp [attempts, hE, strategySucceeds, hi]
      refine ⟨by simp only [hA]; decide, by simp only [hA]; decide, ?_, ?_, ?_, ?_, ?_⟩
      · rw [hA]; simp [hE]
      · rw [hA]; simp [hE]
      · rw [hA]; simp [strategySucceeds, hi]
      · rw [hA]
        intro s hs
        simp at hs
        subst hs
        exact hi
      · rw [hA]
        intro s hs hsucc
        cases hs
        rcases (FixResult.success_iff _).mp hsucc with ⟨c, hc⟩
        have hres := geo_html_case env c (Or.inl hE) hi hc
        exact ⟨by rw [hres]; rfl, by rw [hres]; rfl⟩

/-- C3: the returned record's `error` is non-null exactly when every
attempted strategy failed; the source is the `"未知"` sentinel exactly
when `error` is non-null; and on success the source is GPS, IP or
HTML5. -/
theorem getGeoLocation_error_source_invariant (env : Env) :
    ((Location.getGeoLocation env).error ≠ none ↔
      ∀ s ∈ attempts env, strategySucceeds env s = false) ∧
    ((Location.getGeoLocation env).source = "未知" ↔
      (Location.getGeoLocation env).error ≠ none) ∧
    ((Location.getGeoLocation env).error = none →
      (Location.getGeoLocation env).source = "GPS" ∨
      (Location.getGeoLocation env).source = "IP" ∨
      (Location.getGeoLocation env).source = "HTML5") := by
  cases hE : gpsEligible env with
  | true =>
    cases hg : (Location.getGpsLocation env).success with
    | true =>
      have hA : attempts env = [.gps] := by
        simp [attempts, hE, strategySucceeds, hg]
      rcases (FixResult.success_iff _).mp hg with ⟨c, hc⟩
      have hres := geo_gps_case env c hE hc
      simp [hres, Location.mergeResults, hA, strategySucceeds, hg]
    | false =>
      cases hi : (Location.getIpLocation env).success with
      | true =>
        have hA : attempts env = [.gps, .ip] := by
          simp [attempts, hE, strategySucceeds, hg, hi]
        have hres := geo_ip_case env (Or.inr hg) hi
        simp [hres, Location.mergeResults, hA, strategySucceeds, hg, hi]
      | false =>
        have hA : attempts env = [.gps, .ip, .html5] := by
          simp [attempts, hE, strategySucceeds, hg, hi]
        cases hh : (Location.getHtml5Location env).success with
        | true =>
          rcases (FixResult.success_iff _).mp hh with ⟨c, hc⟩
          have hres := geo_html_case env c (Or.inr hg) hi hc
          simp [hres, Location.mergeResults, hA, strategySucceeds, hg, hi, hh]
        | false =>
          have hres := geo_fail_case env (Or.inr hg) hi hh
          simp [hres, initResult, hA, strategySucceeds, hg, hi, hh]
  | false =>
    cases hi : (Location.getIpLocation env).success with
    | true =>
      have hA : attempts env = [.ip] := by
        simp [attempts, hE, strategySucceeds, hi]
      have hres := geo_ip_case env (Or.inl hE) hi
      simp [hres, Location.mergeResults, hA, strategySucceeds, hi]
    | false =>
      have hA : attempts env = [.ip, .html5] := by
        simp [attempts, hE, strategySucceeds, hi]
      cases hh : (Location.getHtml5Location env).success with
      | true =>
        rcases (FixResult.success_iff _).mp hh with ⟨c, hc⟩
        have hres := geo_html_case env c (Or.inl hE) hi hc
        simp [hres, Location.mergeResults, hA, strategySucceeds, hi, hh]
      | false =>
        have hres := geo_fail_case env (Or.inl hE) hi hh
        simp [hres, initResult, hA, strategySucceeds, hi, hh]

/-- The service loop either stops at the first successful trial — all
earlier trials having failed — or fails in aggregate after every trial
failed. -/
theorem ipLookupLoop_spec (l : List (IpService × FetchOutcome)) :
    (∃ (i : Nat) (svc : IpService) (f : FetchOutcome) (p : IpPayload), l[i]? = some (svc, f) ∧ tryIpService f svc = .ok p ∧
        (∀ (j : Nat) (svc2 : IpService) (f2 : FetchOutcome), j < i → l[j]? = some (svc2, f2) →
          ∃ e, tryIpService f2 svc2 = .error e) ∧
        ipLookupLoop l = { success := true, payload := some p, error := none }) ∨
    ((∀ (j : Nat) (svc : IpService) (f : FetchOutcome), l[j]? = some (svc, f) → ∃ e, tryIpService f svc = .error e) ∧
        ipLookupLoop l =
          { success := false, payload := none, error := some "所有IP定位服务失败" }) := by
  induction l with
  | nil =>
    refine Or.inr ⟨?_, rfl⟩
    intro j svc f h
    simp at h
  | cons hd tl ih =>
    obtain ⟨svc, f⟩ := hd
    cases ht : tryIpService f svc with
    | ok p =>
      refine Or.inl ⟨0, svc, f, p, by simp, ht, ?_, by simp [ipLookupLoop, ht]⟩
      intro j svc2 f2 hj
      omega
    | error e =>
      rcases ih with ⟨i, svc1, f1, p, hget, hok, hprev, hres⟩ | ⟨hall, hres⟩
      · refine Or.inl ⟨i + 1, svc1, f1, p, by simpa using hget, hok, ?_,
          by simpa [ipLookupLoop, ht] using hres⟩
        intro j svc2 f2 hj hgetj
        cases j with
        | zero =>
          simp at hgetj
          obtain ⟨rfl, rfl⟩ := hgetj
          exact ⟨e, ht⟩
        | succ k =>
          simp at hgetj
          exact hprev k svc2 f2 (by omega) hgetj
      · refine Or.inr ⟨?_, by simpa [ipLookupLoop, ht] using hres⟩
        intro j svc2 f2 hgetj
        cases j with
        | zero =>
          simp at hgetj
          obtain ⟨rfl, rfl⟩ := hgetj
          exact ⟨e, ht⟩
        | succ k =>
          simp at hgetj
          exact hall k svc2 f2 hgetj

/-- C6: `_getIpLocation` tries the declared services in list order; it
returns the payload of the first service whose fetch-and-parse trial
succeeds, every earlier trial having failed (so a failure of service N
does not prevent trying service N+1), and returns the single aggregate
failure exactly when every service's trial failed. -/
theorem getIpLocation_first_success (env : Env) :
    (∃ (i : Nat) (svc : IpService) (f : FetchOutcome) (p : IpPayload), (ipServices.zip (envFetches env))[i]? = some (svc, f) ∧
        tryIpService f svc = .ok p ∧
        (∀ (j : Nat) (svc2 : IpService) (f2 : FetchOutcome), j < i → (ipServices.zip (envFetches env))[j]? = some (svc2, f2) →
          ∃ e, tryIpService f2 svc2 = .error e) ∧
        Location.getIpLocation env =
          { success := true, payload := some p, error := none }) ∨
    ((∀ (j : Nat) (svc : IpService) (f : FetchOutcome), (ipServices.zip (envFetches env))[j]? = some (svc, f) →
        ∃ e, tryIpService f svc = .error e) ∧
      Location.getIpLocation env =
        { success := false, payload := none, error := some "所有IP定位服务失败" }) := by
  unfold Location.getIpLocation
  exact ipLookupLoop_spec (ipServices.zip (envFetches env))

/-- Counterexample to C8 as stated: the raw string `"AS1234"` is absent
from the AS-number table and matches none of the carrier-name variants,
its first whitespace- or hyphen-delimited token is `"AS1234"` itself,
yet `_formatOperatorName` returns the labeled string
`"AS号码: AS1234"`, not that token. -/
theorem formatOperatorName_as_label_cex :
    asMapLookup "AS1234" = none ∧
    operatorVariantMatch "AS1234" = none ∧
    (jsSplitWsHyphen "AS1234").headD "" = "AS1234" ∧
    Location.formatOperatorName (some "AS1234") = "AS号码: AS1234" ∧
    Location.formatOperatorName (some "AS1234") ≠ "AS1234" := by
  refine ⟨by decide, by decide, by decide, by decide, by decide⟩

/-- A successful lookup in the AS table implies the key has the pure
AS-number form. -/
theorem asMapLookup_isAs (s : String) (n : String)
    (h : asMapLookup s = some n) : isAsCode s = true := by
  by_cases h1 : ("AS4134" : String) = s
  · rw [← h1]; decide
  · by_cases h2 : ("AS9808" : String) = s
    · rw [← h2]; decide
    · by_cases h3 : ("AS4837" : String) = s
      · rw [← h3]; decide
      · by_cases h4 : ("AS58453" : String) = s
        · rw [← h4]; decide
        · exfalso
          rw [asMapLookup, asMap] at h
          simp [List.find?, h1, h2, h3, h4] at h

/-- C8 as amended: the resolution follows exact AS-table lookup, then —
for a pure AS-number string missing from the table — the labeled
`"AS号码: "` string, then the carrier-variant regexes, then the
first-token fallback, with empty or missing input yielding `"未知"`. -/
theorem formatOperatorName_matches_amended (op : Option String) :
    Location.formatOperatorName op = operatorResolutionAmended op := by
  cases op with
  | none => rfl
  | some s =>
    unfold Location.formatOperatorName operatorResolutionAmended
    simp only [Bool.or_eq_true, decide_eq_true_eq]
    by_cases hz : s = "" ∨ s = "未知"
    · rw [if_pos hz, if_pos hz]
    · rw [if_neg hz, if_neg hz]
      cases hA : isAsCode s with
      | false =>
        have hnone : asMapLookup s = none := by
          cases hL : asMapLookup s with
          | none => rfl
          | some n => exact absurd (asMapLookup_isAs s n hL) (by simp [hA])
        simp [hA, hnone]
      | true =>
        cases hL : asMapLookup s <;> simp [hA, hL]

/-- C9, scenario A: with the sensor API absent and the first IP service
answering `{loc: "29.56,106.56", city: "Chongqing", country: "CN",
org: "AS4134"}`, the resolver returns an IP-sourced record located at
latitude 29.56 and longitude 106.56 in Chongqing, CN, with the operator
resolved to `"中国电信"`. -/
theorem getGeoLocation_scenario_A :
    (Location.getGeoLocation envScenarioA).source = "IP" ∧
    (Location.getGeoLocation envScenarioA).latitude = JsVal.num (2956 / 100) ∧
    (Location.getGeoLocation envScenarioA).longitude = JsVal.num (10656 / 100) ∧
    (Location.getGeoLocation envScenarioA).city = some "Chongqing" ∧
    (Location.getGeoLocation envScenarioA).country = some "CN" ∧
    (Location.getGeoLocation envScenarioA).operator = "中国电信" := by
  refine ⟨by decide, ?_, ?_, by decide, by decide, by decide⟩
  · have h1 : (Location.getGeoLocation envScenarioA).latitude = jsParseFloat "29.56" := rfl
    have hp : jsParseFloatParts "29.56" = some (false, ['2', '9'], ['5', '6']) := by decide
    have h2 : digitsToNat ['2', '9'] = 29 := by decide
    have h3 : digitsToNat ['5', '6'] = 56 := by decide
    rw [h1]
    unfold jsParseFloat
    rw [hp]
    norm_num [h2, h3]
  · have h1 : (Location.getGeoLocation envScenarioA).longitude = jsParseFloat "106.56" := rfl
    have hp : jsParseFloatParts "106.56" = some (false, ['1', '0', '6'], ['5', '6']) := by decide
    have h2 : digitsToNat ['1', '0', '6'] = 106 := by decide
    have h3 : digitsToNat ['5', '6'] = 56 := by decide
    rw [h1]
    unfold jsParseFloat
    rw [hp]
    norm_num [h2, h3]
